import Mathlib

/-!
Verification development for the geospatial web-app backend
(`src/backend/data_generator.py`, `src/backend/grpc_server.py`,
`src/backend/database.py`).

The Python code is shallowly embedded: numeric scalars are modelled with `ℚ`
(all Python floats appearing in the verified control flow are finite unless
noted otherwise), machine integers with `ℕ`, dictionaries with association
lists or `String → Option _` maps, and the per-cell field formulas (sines,
Gaussian noise, wall-clock terms) with an abstract pointwise function
parameter, since the verified claims only depend on the shape of the data,
never on the transcendental values themselves.
-/

namespace Geospatial

/-! ## Grid sizing (data_generator.py, generate_batch_data / generate_columnar_data)

Python:
```
if max_points <= resolution * resolution:
    actual_resolution = resolution
else:
    actual_resolution = max(resolution, int(math.sqrt(max_points)) + 1)
```
`int(math.sqrt(m))` truncates the real square root, i.e. it is `Nat.sqrt m`
for the integer inputs the service receives. -/
def actualResolution (maxPoints resolution : ℕ) : ℕ :=
  if maxPoints ≤ resolution * resolution then resolution
  else max resolution (Nat.sqrt maxPoints + 1)

/-- The spec's own formula (§3 GridSpec): `ceil(sqrt(requested_point_count))`,
written as a second definition to compare with the code's
`int(math.sqrt(max_points)) + 1`. -/
def specCeilSqrt (m : ℕ) : ℕ :=
  if Nat.sqrt m * Nat.sqrt m = m then Nat.sqrt m else Nat.sqrt m + 1

/-- The spec's derived resolution (§3 GridSpec):
`max(requested_resolution, ceil(sqrt(requested_point_count)))` in the
overflow case, `requested_resolution` otherwise. -/
def specActualResolution (maxPoints resolution : ℕ) : ℕ :=
  if maxPoints ≤ resolution * resolution then resolution
  else max resolution (specCeilSqrt maxPoints)

/-! ## Grid coordinates (np.linspace / np.meshgrid / flatten)

`np.linspace(a, b, n)` produces `n` evenly spaced samples, both endpoints
included (`[a]` for `n = 1`).  `np.meshgrid(lat_grid, lng_grid)` returns
`lat_mesh[i, j] = lat_grid[j]` and `lng_mesh[i, j] = lng_grid[i]`; `flatten`
is row-major, so flat index `i*n + j` holds cell `(i, j)`. -/
def linspace (a b : ℚ) (n : ℕ) : List ℚ :=
  if n ≤ 1 then List.replicate n a
  else (List.range n).map (fun (i : ℕ) => a + (i : ℚ) * (b - a) / ((n : ℚ) - 1))

/-- Row-major flattened latitude mesh: cell `(i, j)` has latitude
`lat_grid[j]`. -/
def flatLatMesh (latGrid lngGrid : List ℚ) : List ℚ :=
  lngGrid.flatMap (fun _ => latGrid.map (fun la => la))

/-- Row-major flattened longitude mesh: cell `(i, j)` has longitude
`lng_grid[i]`. -/
def flatLngMesh (latGrid lngGrid : List ℚ) : List ℚ :=
  lngGrid.flatMap (fun ln => latGrid.map (fun _ => ln))

/-- Row-major flattened field values: the generation methods are elementwise
in the mesh (plus per-cell noise), abstracted as `f lat lng`. -/
def flatField (f : ℚ → ℚ → ℚ) (latGrid lngGrid : List ℚ) : List ℚ :=
  lngGrid.flatMap (fun ln => latGrid.map (fun la => f la ln))

/-! ## Batch point assembly (generate_batch_data, lines 82-119)

The nested loop appends grid cells in row-major order and breaks (inner and
outer) once `len(data_points) >= max_points`. -/

structure BatchPoint where
  id : String
  latitude : ℚ
  longitude : ℚ
  altitude : ℚ
  value : ℚ
  unit : String
  timestamp : ℕ
  metadata : List (String × String)
  deriving Repr, DecidableEq

/-- The append-until-full loop: keep appending cells while the accumulator is
shorter than `maxPoints`, mirroring the `if len(data_points) >= max_points:
break` guards. -/
def appendUpTo (maxPoints : ℕ) : List BatchPoint → List BatchPoint → List BatchPoint
  | acc, [] => acc
  | acc, c :: cs =>
    if maxPoints ≤ acc.length then acc
    else appendUpTo maxPoints (acc ++ [c]) cs

/-- One grid cell turned into a data point (generate_batch_data lines 92-115).
`ts` stands for `int(time.time())`. -/
def mkBatchPoint (dataType : String) (maxPoints : ℕ) (ts : ℕ)
    (pointId i j : ℕ) (lat lng z : ℚ) (n : ℕ) : BatchPoint :=
  { id := if 50000 < maxPoints then toString pointId
          else s!"{dataType}_{i}_{j}_{ts}"
    latitude := lat
    longitude := lng
    altitude := 0
    value := z
    unit := dataType
    timestamp := ts * 1000
    metadata :=
      if maxPoints ≤ 50000 then
        [("generation_method", dataType), ("grid_position", s!"{i},{j}"),
         ("resolution", toString n), ("batch_generated", "true")]
      else [("generation_method", dataType)] }

/-- The known generation methods, in dictionary order
(data_generator.py `__init__`). -/
def generationMethodKeys : List String :=
  ["elevation", "temperature", "pressure", "noise", "sine_wave"]

/-- The field kinds of the five generation functions plus the fallback. -/
inductive FieldKind where
  | elevation | temperature | pressure | noise | sine_wave
  deriving Repr, DecidableEq

/-- Python `self.generation_methods` as a lookup table from key to field kind. -/
def generationMethods : List (String × FieldKind) :=
  [("elevation", .elevation), ("temperature", .temperature),
   ("pressure", .pressure), ("noise", .noise), ("sine_wave", .sine_wave)]

/-- Python `data_type = data_types[0] if data_types else 'elevation'`. -/
def chosenDataType (dataTypes : List String) : String :=
  dataTypes.headD "elevation"

/-- Python `method = self.generation_methods.get(data_type, self._generate_elevation_data)`. -/
def chosenMethod (dataTypes : List String) : FieldKind :=
  (generationMethods.lookup (chosenDataType dataTypes)).getD .elevation

/-- All cells of the grid in row-major order, each already converted to a
data point.  `field` abstracts the selected generation function. -/
def batchCells (dataType : String) (field : ℚ → ℚ → ℚ)
    (latMin latMax lngMin lngMax : ℚ) (maxPoints ts n : ℕ) : List BatchPoint :=
  let latGrid := linspace latMin latMax n
  let lngGrid := linspace lngMin lngMax n
  (List.range n).flatMap (fun i =>
    (List.range n).map (fun j =>
      mkBatchPoint dataType maxPoints ts (i * n + j) i j
        (latGrid.getD j 0) (lngGrid.getD i 0)
        (field (latGrid.getD j 0) (lngGrid.getD i 0)) n))

/-- Function `generate_batch_data`: derive the working resolution, walk the grid
row-major and stop at `max_points` points.  Returns the point list and the
generation-method string. -/
def generateBatchData (field : ℚ → ℚ → ℚ)
    (latMin latMax lngMin lngMax : ℚ) (dataTypes : List String)
    (maxPoints resolution ts : ℕ) : List BatchPoint × String :=
  let dataType := chosenDataType dataTypes
  let n := actualResolution maxPoints resolution
  (appendUpTo maxPoints [] (batchCells dataType field latMin latMax lngMin lngMax maxPoints ts n),
   s!"numpy_{dataType}_batch")

/-! ## Columnar generation (generate_columnar_data, lines 130-215) -/

/-- The columnar data structure: parallel arrays plus a map of named
auxiliary numeric arrays (`additional_data`). -/
structure ColumnarBlock where
  id : List String
  x : List ℚ
  y : List ℚ
  z : List ℚ
  idValue : List String
  additionalData : String → Option (List ℚ)

/-- Python dict assignment `d[k] = v`. -/
def updateMap (d : String → Option (List ℚ)) (k : String) (v : List ℚ) :
    String → Option (List ℚ) :=
  fun key => if key = k then some v else d key

/-- Function `generate_columnar_data`: derive the working resolution, flatten the
meshes, truncate every array at `max_points`, then populate
`additional_data` from `data_types[1:]` and from the two unconditional
extra columns (`elevation`, `temperature`) when absent from `data_types`.
`field` abstracts the five pointwise generation functions. -/
def generateColumnarData (field : FieldKind → ℚ → ℚ → ℚ)
    (latMin latMax lngMin lngMax : ℚ) (dataTypes : List String)
    (maxPoints resolution : ℕ) : ColumnarBlock × String :=
  let primary := chosenDataType dataTypes
  let primaryKind := (generationMethods.lookup primary).getD .elevation
  let n := actualResolution maxPoints resolution
  let latGrid := linspace latMin latMax n
  let lngGrid := linspace lngMin lngMax n
  let flatLat := (flatLatMesh latGrid lngGrid).take maxPoints
  let flatLng := (flatLngMesh latGrid lngGrid).take maxPoints
  let flatZ := (flatField (field primaryKind) latGrid lngGrid).take maxPoints
  let actualCount := flatLat.length
  let additional0 : String → Option (List ℚ) := fun _ => none
  let additional1 := (dataTypes.drop 1).foldl (fun d t =>
    match generationMethods.lookup t with
    | some k => updateMap d t ((flatField (field k) latGrid lngGrid).take maxPoints)
    | none => d) additional0
  let additional2 :=
    if "elevation" ∈ dataTypes then additional1
    else updateMap additional1 "elevation"
      ((flatField (field .elevation) latGrid lngGrid).take maxPoints)
  let additional3 :=
    if "temperature" ∈ dataTypes then additional2
    else updateMap additional2 "temperature"
      ((flatField (field .temperature) latGrid lngGrid).take maxPoints)
  ({ id := (List.range actualCount).map (fun i => s!"point_{i}")
     x := flatLng
     y := flatLat
     z := flatZ
     idValue := (List.range actualCount).map (fun i => s!"{primary}_sensor_{i % 10}")
     additionalData := additional3 },
   s!"numpy_columnar_{primary}")

/-! ## Chunked delivery (grpc_server.py, GetBatchDataStreamed lines 388-475
and GetBatchDataColumnarStreamed lines 946-1018) -/

/-- Python `chunk_size = 25000  # 25K points per chunk`. -/
def chunkSize : ℕ := 25000

/-- Python `total_chunks = (total_points + chunk_size - 1) // chunk_size`. -/
def totalChunksFor (totalPoints : ℕ) : ℕ :=
  (totalPoints + chunkSize - 1) / chunkSize

/-- One message of the row-oriented chunk stream. -/
structure RowChunk where
  dataPoints : List BatchPoint
  chunkNumber : ℕ
  totalChunks : ℕ
  pointsInChunk : ℕ
  isFinalChunk : Bool
  generationMethod : String

/-- The `GetBatchDataStreamed` chunk loop: iterate `chunk_num` over
`range(total_chunks)`, slice `data_points_list[start:end]`, and emit a chunk
with 1-based `chunk_number = chunk_num + 1`. -/
def rowChunks (pts : List BatchPoint) (generationMethod : String) : List RowChunk :=
  let total := pts.length
  let nChunks := totalChunksFor total
  (List.range nChunks).map (fun chunkNum =>
    let start := chunkNum * chunkSize
    let endIdx := min (start + chunkSize) total
    let chunkData := (pts.drop start).take (endIdx - start)
    { dataPoints := chunkData
      chunkNumber := chunkNum + 1
      totalChunks := nChunks
      pointsInChunk := chunkData.length
      isFinalChunk := chunkNum = nChunks - 1
      generationMethod := s!"{generationMethod}_streamed" })

/-- One message of the columnar chunk stream. -/
structure ColumnarChunk where
  chunkNumber : ℕ
  totalChunks : ℕ
  pointsInChunk : ℕ
  isFinalChunk : Bool
  generationMethod : String
  id : List String
  x : List ℚ
  y : List ℚ
  z : List ℚ
  idValue : List String
  additionalData : String → Option (List ℚ)

/-- The `GetBatchDataColumnarStreamed` chunk loop: iterate `chunk_index` over
`range(total_chunks)` and emit a chunk with 0-based
`chunk_number = chunk_index`, slicing every parallel array identically. -/
def columnarChunks (block : ColumnarBlock) (generationMethod : String) :
    List ColumnarChunk :=
  let total := block.x.length
  let nChunks := totalChunksFor total
  (List.range nChunks).map (fun chunkIndex =>
    let start := chunkIndex * chunkSize
    let endIdx := min (start + chunkSize) total
    { chunkNumber := chunkIndex
      totalChunks := nChunks
      pointsInChunk := endIdx - start
      isFinalChunk := chunkIndex = nChunks - 1
      generationMethod := generationMethod
      id := (block.id.drop start).take (endIdx - start)
      x := (block.x.drop start).take (endIdx - start)
      y := (block.y.drop start).take (endIdx - start)
      z := (block.z.drop start).take (endIdx - start)
      idValue := (block.idValue.drop start).take (endIdx - start)
      additionalData := fun key =>
        (block.additionalData key).map (fun vs => (vs.drop start).take (endIdx - start)) })

/-! ## Protobuf conversion in GetBatchData (grpc_server.py lines 179-246)

The whole conversion loop sits inside one `try`; any exception while encoding
a point aborts the call, sets `grpc.StatusCode.INTERNAL` and returns an empty
`GetBatchDataResponse()`.  Point scalars are modelled as possibly non-finite
(`FVal.nonfin` stands for NaN/±Inf, the failure the spec postulates for the
encoder); encoding is fallible exactly on non-finite scalars. -/

/-- A float that may be NaN or infinite. -/
inductive FVal where
  | fin (q : ℚ)
  | nonfin
  deriving Repr, DecidableEq

/-- A point as produced by the generator, before protobuf conversion. -/
structure RawPoint where
  id : String
  latitude : FVal
  longitude : FVal
  altitude : FVal
  value : FVal
  unit : String
  timestamp : ℕ
  deriving Repr, DecidableEq

/-- A successfully encoded protobuf `DataPoint`. -/
structure ProtoPoint where
  id : String
  latitude : ℚ
  longitude : ℚ
  altitude : ℚ
  value : ℚ
  unit : String
  timestamp : ℕ
  deriving Repr, DecidableEq

def encodeScalar : FVal → Option ℚ
  | .fin q => some q
  | .nonfin => none

/-- Encoding one point: fails iff some scalar is non-finite. -/
def encodePoint (p : RawPoint) : Option ProtoPoint := do
  let lat ← encodeScalar p.latitude
  let lng ← encodeScalar p.longitude
  let alt ← encodeScalar p.altitude
  let v ← encodeScalar p.value
  pure { id := p.id, latitude := lat, longitude := lng, altitude := alt,
         value := v, unit := p.unit, timestamp := p.timestamp }

/-- The conversion loop: the first failing point raises, aborting the whole
loop (there is no per-point `try`/`except` in the code). -/
def convertPoints : List RawPoint → Except Unit (List ProtoPoint)
  | [] => .ok []
  | p :: ps =>
    match encodePoint p with
    | none => .error ()
    | some e =>
      match convertPoints ps with
      | .error u => .error u
      | .ok es => .ok (e :: es)

/-- The `GetBatchDataResponse` as observed by the caller: either the data with
an OK status, or an empty response with the INTERNAL error status set. -/
structure BatchResponse where
  dataPoints : List ProtoPoint
  totalCount : ℕ
  generationMethod : String
  errorStatus : Bool
  deriving Repr, DecidableEq

/-- Method `GetBatchData`'s handling of the conversion loop (the call-level
`try`/`except`). -/
def getBatchDataResponse (pts : List RawPoint) (generationMethod : String) :
    BatchResponse :=
  match convertPoints pts with
  | .ok es =>
    { dataPoints := es, totalCount := es.length,
      generationMethod := generationMethod, errorStatus := false }
  | .error _ =>
    { dataPoints := [], totalCount := 0, generationMethod := "",
      errorStatus := true }

/-! ## Live streaming (grpc_server.py StreamData lines 105-164,
data_generator.py generate_streaming_data lines 217-274)

The server loop pulls one generated point per iteration and checks
`context.is_active()` exactly once per iteration: if active it yields the
point, otherwise it breaks.  `active i` is the liveness value observed at
iteration `i`; the generated point sequence is abstracted as a list. -/
def streamEmit (active : ℕ → Bool) : List BatchPoint → ℕ → List BatchPoint
  | [], _ => []
  | p :: ps, k => if active k then p :: streamEmit active ps (k + 1) else []

/-- Result of a `StreamData` call: the emitted points and whether an error
status was set (the `except` branch runs only on an exception; a client
disconnect takes the `break` path and sets no status). -/
structure StreamResult where
  points : List BatchPoint
  errorStatus : Bool
  deriving Repr

def streamData (active : ℕ → Bool) (pts : List BatchPoint) : StreamResult :=
  { points := streamEmit active pts 0, errorStatus := false }

/-! ## Boundary engine (database.py get_dataset_boundaries, lines 344-465)

Rows are JSON objects, modelled as association lists from column name to a
numeric value (the SQL `CAST(JSON_EXTRACT(..) AS REAL)` of the stored value);
a missing key is SQL NULL and is ignored by `MIN`/`MAX` and by the
`valid_count` filter.  The NaN/Inf guard at line 429 cannot fire in this
model because `ℚ` has no non-finite values — the verified claims only
concern finite aggregates. -/

structure ColumnMapping where
  columnName : String
  columnType : ℕ
  isCoordinate : Bool
  deriving Repr, DecidableEq

structure DatasetRec where
  columnMappings : List ColumnMapping
  rows : List (List (String × ℚ))
  deriving Repr

/-- The datasets table, keyed by dataset id. -/
abbrev Store := List (String × DatasetRec)

structure ColumnBoundary where
  minValue : ℚ
  maxValue : ℚ
  validCount : ℕ
  deriving Repr, DecidableEq

/-- The non-NULL values of a column over all rows of the dataset. -/
def columnValues (col : String) (rows : List (List (String × ℚ))) : List ℚ :=
  rows.filterMap (fun row => row.lookup col)

/-- SQL `MIN` over a column (NULL when no non-NULL value exists). -/
def sqlMin : List ℚ → Option ℚ
  | [] => none
  | x :: xs => some (xs.foldl min x)

/-- SQL `MAX` over a column. -/
def sqlMax : List ℚ → Option ℚ
  | [] => none
  | x :: xs => some (xs.foldl max x)

/-- The padding applied after the raw aggregates are known
(database.py lines 434-450). -/
def paddedBoundary (minVal maxVal : ℚ) (validCount : ℕ) : ColumnBoundary :=
  if minVal = maxVal then
    let padding := if minVal ≠ 0 then |minVal| * (1 / 10) else 1
    { minValue := minVal - padding, maxValue := maxVal + padding,
      validCount := validCount }
  else
    let padding := (maxVal - minVal) * (1 / 20)
    { minValue := minVal - padding, maxValue := maxVal + padding,
      validCount := validCount }

/-- Function `get_dataset_boundaries`: a missing dataset id returns the empty map; the
target columns default to the numeric/categorical/coordinate columns of the
schema when `column_names` is `None` or empty; columns whose aggregate is
NULL are skipped. -/
def getDatasetBoundaries (store : Store) (datasetId : String)
    (columnNames : Option (List String)) : List (String × ColumnBoundary) :=
  match store.lookup datasetId with
  | none => []
  | some ds =>
    let requested := columnNames.getD []
    let targetColumns :=
      if requested.isEmpty then
        ds.columnMappings.filterMap (fun m =>
          if m.columnType = 1 ∨ m.columnType = 2 ∨ m.isCoordinate then
            some m.columnName
          else none)
      else requested
    if targetColumns.isEmpty then []
    else
      targetColumns.filterMap (fun col =>
        let vals := columnValues col ds.rows
        match sqlMin vals, sqlMax vals with
        | some mn, some mx => some (col, paddedBoundary mn mx vals.length)
        | _, _ => none)

/-! ## Sample values used to instantiate universally quantified theorems -/

def samplePoint : BatchPoint :=
  { id := "p", latitude := 0, longitude := 0, altitude := 0, value := 0,
    unit := "elevation", timestamp := 0, metadata := [] }

def sampleBlock : ColumnarBlock :=
  { id := ["point_0"], x := [0], y := [0], z := [0],
    idValue := ["elevation_sensor_0"], additionalData := fun _ => none }

end Geospatial

namespace Geospatial

/-! Basic facts about the loop and the grid. -/

theorem appendUpTo_eq (maxPoints : ℕ) :
    ∀ (cs acc : List BatchPoint),
      appendUpTo maxPoints acc cs = acc ++ cs.take (maxPoints - acc.length) := by
  intro cs
  induction cs with
  | nil => intro acc; simp [appendUpTo]
  | cons c cs ih =>
    intro acc
    rw [appendUpTo]
    by_cases h : maxPoints ≤ acc.length
    · simp [h, Nat.sub_eq_zero_of_le h]
    · have hlt : acc.length < maxPoints := Nat.lt_of_not_le h
      simp only [h, if_false, ih]
      have hsub : maxPoints - acc.length = (maxPoints - (acc.length + 1)) + 1 := by
        omega
      simp [hsub, List.take_succ_cons]

theorem appendUpTo_length (maxPoints : ℕ) (cs : List BatchPoint) :
    (appendUpTo maxPoints [] cs).length = min maxPoints cs.length := by
  rw [appendUpTo_eq]
  simp [List.length_take]

theorem batchCells_length (dataType : String) (field : ℚ → ℚ → ℚ)
    (latMin latMax lngMin lngMax : ℚ) (maxPoints ts n : ℕ) :
    (batchCells dataType field latMin latMax lngMin lngMax maxPoints ts n).length = n * n := by
  simp [batchCells, Function.comp_def, List.map_const']

theorem generateBatchData_length (field : ℚ → ℚ → ℚ)
    (latMin latMax lngMin lngMax : ℚ) (dataTypes : List String)
    (maxPoints resolution ts : ℕ) :
    (generateBatchData field latMin latMax lngMin lngMax dataTypes maxPoints resolution ts).1.length
      = min maxPoints
          (actualResolution maxPoints resolution * actualResolution maxPoints resolution) := by
  simp [generateBatchData, appendUpTo_length, batchCells_length]

theorem linspace_length (a b : ℚ) (n : ℕ) : (linspace a b n).length = n := by
  unfold linspace
  split
  · simp
  · rw [List.length_map, List.length_range]

/-- Value of `Nat.sqrt` at a concrete point, characterised by bracketing squares. -/
theorem sqrt_exact (k m : ℕ) (h1 : k * k ≤ m) (h2 : m < (k + 1) * (k + 1)) :
    Nat.sqrt m = k :=
  Nat.le_antisymm (Nat.le_of_lt_succ (Nat.sqrt_lt.2 h2)) (Nat.le_sqrt.2 h1)

theorem flatLatMesh_length (latGrid lngGrid : List ℚ) :
    (flatLatMesh latGrid lngGrid).length = latGrid.length * lngGrid.length := by
  simp [flatLatMesh, Function.comp_def, List.map_const']
  ring

theorem flatLngMesh_length (latGrid lngGrid : List ℚ) :
    (flatLngMesh latGrid lngGrid).length = latGrid.length * lngGrid.length := by
  simp [flatLngMesh, Function.comp_def, List.map_const']
  ring

theorem flatField_length (f : ℚ → ℚ → ℚ) (latGrid lngGrid : List ℚ) :
    (flatField f latGrid lngGrid).length = latGrid.length * lngGrid.length := by
  simp [flatField, Function.comp_def, List.map_const']
  ring

/-- All five parallel arrays of a generated columnar block have length
`min maxPoints (actualResolution² )`. -/
theorem generateColumnarData_lengths (field : FieldKind → ℚ → ℚ → ℚ)
    (latMin latMax lngMin lngMax : ℚ) (dataTypes : List String)
    (maxPoints resolution : ℕ) :
    let block := (generateColumnarData field latMin latMax lngMin lngMax
        dataTypes maxPoints resolution).1
    let n := actualResolution maxPoints resolution
    block.x.length = min maxPoints (n * n) ∧
    block.y.length = min maxPoints (n * n) ∧
    block.z.length = min maxPoints (n * n) ∧
    block.id.length = min maxPoints (n * n) ∧
    block.idValue.length = min maxPoints (n * n) := by
  refine ⟨?_, ?_, ?_, ?_, ?_⟩ <;>
    simp [generateColumnarData, flatLatMesh_length, flatLngMesh_length,
      flatField_length, linspace_length, Nat.min_comm]

end Geospatial

namespace Geospatial

/-! ## Claim C1: grid sizing of the batch generators -/

/-- C1 (amended). For `max_points ≥ 1`, `resolution ≥ 1`:
if `max_points ≤ resolution²` then `actual_resolution = resolution` and both
generators return `min(max_points, resolution²)` points; otherwise
`actual_resolution = max(resolution, floor(sqrt(max_points)) + 1)` — which
equals the spec's `max(resolution, ceil(sqrt(max_points)))` exactly when
`max_points` is not a perfect square — and `actual_resolution² ≥ max_points`. -/
theorem claim1_grid_spec_resolution (m r : ℕ) (hm : 1 ≤ m) (hr : 1 ≤ r) :
    (m ≤ r * r →
      actualResolution m r = r ∧
      (∀ (f : ℚ → ℚ → ℚ) (fc : FieldKind → ℚ → ℚ → ℚ)
          (latMin latMax lngMin lngMax : ℚ) (dataTypes : List String) (ts : ℕ),
        (generateBatchData f latMin latMax lngMin lngMax dataTypes m r ts).1.length
          = min m (r * r) ∧
        (generateColumnarData fc latMin latMax lngMin lngMax dataTypes m r).1.x.length
          = min m (r * r))) ∧
    (r * r < m →
      actualResolution m r = max r (Nat.sqrt m + 1) ∧
      m ≤ actualResolution m r * actualResolution m r ∧
      (Nat.sqrt m * Nat.sqrt m ≠ m → actualResolution m r = specActualResolution m r)) := by
  constructor
  · intro hle
    have hres : actualResolution m r = r := by simp [actualResolution, hle]
    refine ⟨hres, ?_⟩
    intro f fc latMin latMax lngMin lngMax dataTypes ts
    constructor
    · rw [generateBatchData_length, hres]
    · have := (generateColumnarData_lengths fc latMin latMax lngMin lngMax
        dataTypes m r).1
      simpa [hres] using this
  · intro hlt
    have hnle : ¬ m ≤ r * r := Nat.not_le_of_lt hlt
    have hres : actualResolution m r = max r (Nat.sqrt m + 1) := by
      simp [actualResolution, hnle]
    refine ⟨hres, ?_, ?_⟩
    · rw [hres]
      have hsq : m < (Nat.sqrt m + 1) * (Nat.sqrt m + 1) := Nat.lt_succ_sqrt m
      have hle1 : Nat.sqrt m + 1 ≤ max r (Nat.sqrt m + 1) := le_max_right _ _
      calc m ≤ (Nat.sqrt m + 1) * (Nat.sqrt m + 1) := le_of_lt hsq
        _ ≤ max r (Nat.sqrt m + 1) * max r (Nat.sqrt m + 1) :=
            Nat.mul_le_mul hle1 hle1
    · intro hnp
      simp [hres, specActualResolution, specCeilSqrt, hnle, hnp]

/-- Witness for C1 at `max_points = 5`, `resolution = 2` (overflow branch:
`actual_resolution = max(2, 2 + 1) = 3`, `9 ≥ 5`). -/
theorem claim1_grid_spec_resolution_witness :
    actualResolution 5 2 = max 2 (Nat.sqrt 5 + 1) ∧
    5 ≤ actualResolution 5 2 * actualResolution 5 2 := by
  have h := claim1_grid_spec_resolution 5 2 (by decide) (by decide)
  have h2 := h.2 (by decide)
  exact ⟨h2.1, h2.2.1⟩

/-! ## Chunk-stream helper lemmas -/

theorem rowChunks_length (pts : List BatchPoint) (g : String) :
    (rowChunks pts g).length = totalChunksFor pts.length := by
  simp [rowChunks]

theorem columnarChunks_length (block : ColumnarBlock) (g : String) :
    (columnarChunks block g).length = totalChunksFor block.x.length := by
  simp [columnarChunks]

theorem rowChunks_get (pts : List BatchPoint) (g : String) (i : ℕ)
    (h : i < (rowChunks pts g).length) :
    (rowChunks pts g).get ⟨i, h⟩ =
      (let total := pts.length
       let nChunks := totalChunksFor total
       let start := i * chunkSize
       let endIdx := min (start + chunkSize) total
       let chunkData := (pts.drop start).take (endIdx - start)
       { dataPoints := chunkData
         chunkNumber := i + 1
         totalChunks := nChunks
         pointsInChunk := chunkData.length
         isFinalChunk := i = nChunks - 1
         generationMethod := s!"{g}_streamed" } : RowChunk) := by
  simp [rowChunks]

theorem columnarChunks_get (block : ColumnarBlock) (g : String) (i : ℕ)
    (h : i < (columnarChunks block g).length) :
    (columnarChunks block g).get ⟨i, h⟩ =
      (let total := block.x.length
       let nChunks := totalChunksFor total
       let start := i * chunkSize
       let endIdx := min (start + chunkSize) total
       { chunkNumber := i
         totalChunks := nChunks
         pointsInChunk := endIdx - start
         isFinalChunk := i = nChunks - 1
         generationMethod := g
         id := (block.id.drop start).take (endIdx - start)
         x := (block.x.drop start).take (endIdx - start)
         y := (block.y.drop start).take (endIdx - start)
         z := (block.z.drop start).take (endIdx - start)
         idValue := (block.idValue.drop start).take (endIdx - start)
         additionalData := fun key =>
           (block.additionalData key).map
             (fun vs => (vs.drop start).take (endIdx - start)) } : ColumnarChunk) := by
  simp [columnarChunks]

/-- In `range N`, exactly one index equals `N - 1` (for `N ≥ 1`). -/
theorem filter_range_last (N : ℕ) (hN : 1 ≤ N) :
    ((List.range N).filter (fun i => decide (i = N - 1))).length = 1 := by
  obtain ⟨M, rfl⟩ : ∃ M, N = M + 1 := ⟨N - 1, (Nat.succ_pred_eq_of_pos hN).symm⟩
  rw [List.range_succ, List.filter_append]
  have h1 : (List.range M).filter (fun i => decide (i = M + 1 - 1)) = [] := by
    rw [List.filter_eq_nil_iff]
    intro a ha
    simp only [List.mem_range] at ha
    simp only [decide_eq_true_eq]
    omega
  simp [h1]
  omega

/-- C1 counterexample. At `max_points = 4` (a perfect square) and
`resolution = 1`, the code's `actual_resolution` is
`max(1, int(sqrt(4)) + 1) = 3`, while the claim's formula
`max(resolution, ceil(sqrt(max_points)))` gives `2`. -/
theorem claim1_ceil_sqrt_counterexample :
    actualResolution 4 1 = 3 ∧ specActualResolution 4 1 = 2 ∧
    actualResolution 4 1 ≠ specActualResolution 4 1 := by
  have h4 : Nat.sqrt 4 = 2 := sqrt_exact 2 4 (by decide) (by decide)
  refine ⟨?_, ?_, ?_⟩ <;>
    simp [actualResolution, specActualResolution, specCeilSqrt, h4]

end Geospatial

namespace Geospatial

/-! ## Claim C2: chunk numbering and the final-chunk flag -/

/-- C2 (amended). In `GetBatchDataStreamed` chunk numbers are 1-based and
strictly increasing, exactly one chunk of a nonempty stream has
`is_final_chunk = true`, and a chunk is final iff its `chunk_number` equals
`total_chunks`.  In `GetBatchDataColumnarStreamed` chunk numbers are 0-based
(`chunk_number = chunk_index`), exactly one chunk of a nonempty stream is
final, and a chunk is final iff its `chunk_number` equals
`total_chunks - 1`. -/
theorem claim2_chunk_stream_numbering
    (pts : List BatchPoint) (g : String) (block : ColumnarBlock) (g' : String) :
    (∀ i (h : i < (rowChunks pts g).length),
      ((rowChunks pts g).get ⟨i, h⟩).chunkNumber = i + 1) ∧
    (1 ≤ pts.length →
      ((rowChunks pts g).filter (fun c => c.isFinalChunk)).length = 1) ∧
    (∀ i (h : i < (rowChunks pts g).length),
      (((rowChunks pts g).get ⟨i, h⟩).isFinalChunk = true ↔
        ((rowChunks pts g).get ⟨i, h⟩).chunkNumber =
          ((rowChunks pts g).get ⟨i, h⟩).totalChunks)) ∧
    (∀ i (h : i < (columnarChunks block g').length),
      ((columnarChunks block g').get ⟨i, h⟩).chunkNumber = i) ∧
    (1 ≤ block.x.length →
      ((columnarChunks block g').filter (fun c => c.isFinalChunk)).length = 1) ∧
    (∀ i (h : i < (columnarChunks block g').length),
      (((columnarChunks block g').get ⟨i, h⟩).isFinalChunk = true ↔
        ((columnarChunks block g').get ⟨i, h⟩).chunkNumber =
          ((columnarChunks block g').get ⟨i, h⟩).totalChunks - 1)) := by
  refine ⟨?_, ?_, ?_, ?_, ?_, ?_⟩
  · intro i h
    rw [rowChunks_get]
  · intro hpts
    have hN : 1 ≤ totalChunksFor pts.length := by
      unfold totalChunksFor chunkSize
      omega
    simp only [rowChunks, List.filter_map]
    rw [List.length_map]
    have hcomp :
        ((fun c => c.isFinalChunk) ∘ fun chunkNum =>
          ({ dataPoints := (pts.drop (chunkNum * chunkSize)).take
              (min (chunkNum * chunkSize + chunkSize) pts.length - chunkNum * chunkSize)
             chunkNumber := chunkNum + 1
             totalChunks := totalChunksFor pts.length
             pointsInChunk := ((pts.drop (chunkNum * chunkSize)).take
              (min (chunkNum * chunkSize + chunkSize) pts.length - chunkNum * chunkSize)).length
             isFinalChunk := chunkNum = totalChunksFor pts.length - 1
             generationMethod := s!"{g}_streamed" } : RowChunk))
        = fun i => decide (i = totalChunksFor pts.length - 1) := rfl
    rw [hcomp, filter_range_last _ hN]
  · intro i h
    rw [rowChunks_get]
    have hi : i < totalChunksFor pts.length := by
      simpa [rowChunks_length] using h
    simp only [decide_eq_true_eq]
    omega
  · intro i h
    rw [columnarChunks_get]
  · intro hx
    have hN : 1 ≤ totalChunksFor block.x.length := by
      unfold totalChunksFor chunkSize
      omega
    simp only [columnarChunks, List.filter_map]
    rw [List.length_map]
    have hcomp :
        ((fun c => c.isFinalChunk) ∘ fun chunkIndex =>
          ({ chunkNumber := chunkIndex
             totalChunks := totalChunksFor block.x.length
             pointsInChunk := min (chunkIndex * chunkSize + chunkSize) block.x.length
               - chunkIndex * chunkSize
             isFinalChunk := chunkIndex = totalChunksFor block.x.length - 1
             generationMethod := g'
             id := (block.id.drop (chunkIndex * chunkSize)).take
               (min (chunkIndex * chunkSize + chunkSize) block.x.length - chunkIndex * chunkSize)
             x := (block.x.drop (chunkIndex * chunkSize)).take
               (min (chunkIndex * chunkSize + chunkSize) block.x.length - chunkIndex * chunkSize)
             y := (block.y.drop (chunkIndex * chunkSize)).take
               (min (chunkIndex * chunkSize + chunkSize) block.x.length - chunkIndex * chunkSize)
             z := (block.z.drop (chunkIndex * chunkSize)).take
               (min (chunkIndex * chunkSize + chunkSize) block.x.length - chunkIndex * chunkSize)
             idValue := (block.idValue.drop (chunkIndex * chunkSize)).take
               (min (chunkIndex * chunkSize + chunkSize) block.x.length - chunkIndex * chunkSize)
             additionalData := fun key =>
               (block.additionalData key).map (fun vs =>
                 (vs.drop (chunkIndex * chunkSize)).take
                   (min (chunkIndex * chunkSize + chunkSize) block.x.length
                     - chunkIndex * chunkSize)) } : ColumnarChunk))
        = fun i => decide (i = totalChunksFor block.x.length - 1) := rfl
    rw [hcomp, filter_range_last _ hN]
  · intro i h
    rw [columnarChunks_get]
    simp only [decide_eq_true_eq]

/-- Witness for C2 at one-point streams. -/
theorem claim2_chunk_stream_numbering_witness :
    ((rowChunks [samplePoint] "m").filter (fun c => c.isFinalChunk)).length = 1 ∧
    ((columnarChunks sampleBlock "m").filter (fun c => c.isFinalChunk)).length = 1 := by
  have h := claim2_chunk_stream_numbering [samplePoint] "m" sampleBlock "m"
  exact ⟨h.2.1 (by simp), h.2.2.2.2.1 (by simp [sampleBlock])⟩

/-- C2 counterexample. A one-point columnar stream consists of one chunk
with `chunk_number = 0`, `total_chunks = 1` and `is_final_chunk = true`: the
chunk numbering is 0-based, and the final chunk's number is not
`total_chunks` as the claim states. -/
theorem claim2_columnar_zero_based_counterexample :
    ((columnarChunks sampleBlock "m").map
      (fun c => (c.chunkNumber, c.totalChunks, c.isFinalChunk))) = [(0, 1, true)] ∧
    ¬ ((columnarChunks sampleBlock "m").map
      (fun c => c.chunkNumber)) = ((columnarChunks sampleBlock "m").map
      (fun c => c.totalChunks)) := by
  constructor
  · rfl
  · intro hcontra
    have : ([0] : List ℕ) = [1] := hcontra
    simp at this

end Geospatial

namespace Geospatial

/-! ## Claim C3: chunk sizes for a 60,000-point stream -/

/-- C3. The number of chunks emitted by `GetBatchDataStreamed` equals
`ceil(total_points / 25000)` (stated by the code's formula together with the
two inequalities characterising the ceiling), and for a generated point list
of exactly 60,000 points the stream is 3 chunks of sizes
`[25000, 25000, 10000]`, only the third being final, summing to 60,000. -/
theorem claim3_chunking_60000 :
    (∀ (pts : List BatchPoint) (g : String),
      (rowChunks pts g).length = (pts.length + chunkSize - 1) / chunkSize ∧
      pts.length ≤ (rowChunks pts g).length * chunkSize ∧
      (1 ≤ pts.length → ((rowChunks pts g).length - 1) * chunkSize < pts.length)) ∧
    (∀ (pts : List BatchPoint) (g : String), pts.length = 60000 →
      ((rowChunks pts g).map (fun c => c.pointsInChunk)) = [25000, 25000, 10000] ∧
      ((rowChunks pts g).map (fun c => c.isFinalChunk)) = [false, false, true] ∧
      ((rowChunks pts g).map (fun c => c.pointsInChunk)).sum = 60000) := by
  constructor
  · intro pts g
    rw [rowChunks_length]
    unfold totalChunksFor chunkSize
    refine ⟨rfl, ?_, ?_⟩ <;> omega
  · intro pts g h
    have h60 : totalChunksFor 60000 = 3 := by rfl
    have hr3 : List.range 3 = [0, 1, 2] := by rfl
    refine ⟨?_, ?_, ?_⟩ <;>
      simp [rowChunks, h, h60, hr3, List.length_take, List.length_drop,
        chunkSize, Function.comp]
end Geospatial

namespace Geospatial

/-- Witness for C3 at a concrete 60,000-point list. -/
theorem claim3_chunking_60000_witness :
    ((rowChunks (List.replicate 60000 samplePoint) "m").map
      (fun c => c.pointsInChunk)) = [25000, 25000, 10000] ∧
    ((rowChunks (List.replicate 60000 samplePoint) "m").map
      (fun c => c.isFinalChunk)) = [false, false, true] ∧
    ((rowChunks (List.replicate 60000 samplePoint) "m").length - 1) * chunkSize
      < (List.replicate 60000 samplePoint : List BatchPoint).length := by
  have h2 := claim3_chunking_60000.2 (List.replicate 60000 samplePoint) "m"
    (by rw [List.length_replicate])
  have h1 := (claim3_chunking_60000.1 (List.replicate 60000 samplePoint) "m").2.2
    (by rw [List.length_replicate]; omega)
  exact ⟨h2.1, h2.2.1, h1⟩

/-! ## Claim C4: boundary padding rules -/

/-- C4. For a column whose finite raw aggregates are `min` and `max`:
if `min = max` the reported range is `[min - p, max + p]` with
`p = |min| * 0.1` when `min ≠ 0` and `p = 1.0` when `min = 0`; if `min < max`
then `p = (max - min) * 0.05`.  In particular a column of constant 10 yields
`[9, 11]`, a column of constant 0 yields `[-1, 1]`, and `min = 0, max = 100`
yields `[-5, 105]`, also end-to-end through `get_dataset_boundaries`. -/
theorem claim4_boundary_padding (mn mx : ℚ) (vc : ℕ) :
    (mn = mx → mn ≠ 0 →
      paddedBoundary mn mx vc =
        ⟨mn - |mn| * (1 / 10), mx + |mn| * (1 / 10), vc⟩) ∧
    (mn = mx → mn = 0 →
      paddedBoundary mn mx vc = ⟨-1, 1, vc⟩) ∧
    (mn < mx →
      paddedBoundary mn mx vc =
        ⟨mn - (mx - mn) * (1 / 20), mx + (mx - mn) * (1 / 20), vc⟩) ∧
    paddedBoundary 10 10 vc = ⟨9, 11, vc⟩ ∧
    paddedBoundary 0 0 vc = ⟨-1, 1, vc⟩ ∧
    paddedBoundary 0 100 vc = ⟨-5, 105, vc⟩ ∧
    getDatasetBoundaries
      [("ds", { columnMappings := [⟨"v", 1, false⟩],
                rows := [[("v", 10)], [("v", 10)], [("v", 10)]] })] "ds" none
      = [("v", ⟨9, 11, 3⟩)] ∧
    getDatasetBoundaries
      [("ds", { columnMappings := [⟨"v", 1, false⟩],
                rows := [[("v", 0)], [("v", 0)], [("v", 0)]] })] "ds" none
      = [("v", ⟨-1, 1, 3⟩)] := by
  refine ⟨?_, ?_, ?_, ?_, ?_, ?_, ?_, ?_⟩
  · intro heq hne
    subst heq
    simp [paddedBoundary, hne]
  · intro heq h0
    subst heq
    simp [paddedBoundary, h0]
  · intro hlt
    have hne : mn ≠ mx := ne_of_lt hlt
    simp [paddedBoundary, hne]
  · norm_num [paddedBoundary]
  · norm_num [paddedBoundary]
  · norm_num [paddedBoundary]
  · norm_num [getDatasetBoundaries, columnValues, sqlMin, sqlMax,
      paddedBoundary, List.lookup, List.filterMap]
  · norm_num [getDatasetBoundaries, columnValues, sqlMin, sqlMax,
      paddedBoundary, List.lookup, List.filterMap]

/-- Witness for C4 at `min = max = 10`, `min = max = 0` and
`min = 0 < max = 100`. -/
theorem claim4_boundary_padding_witness :
    paddedBoundary 10 10 3 = ⟨10 - |(10 : ℚ)| * (1 / 10), 10 + |(10 : ℚ)| * (1 / 10), 3⟩ ∧
    paddedBoundary 0 0 3 = ⟨-1, 1, 3⟩ ∧
    paddedBoundary 0 100 3 =
      ⟨0 - ((100 : ℚ) - 0) * (1 / 20), 100 + ((100 : ℚ) - 0) * (1 / 20), 3⟩ := by
  refine ⟨?_, ?_, ?_⟩
  · exact (claim4_boundary_padding 10 10 3).1 rfl (by norm_num)
  · exact (claim4_boundary_padding 0 0 3).2.1 rfl rfl
  · exact (claim4_boundary_padding 0 100 3).2.2.1 (by norm_num)

end Geospatial

namespace Geospatial

/-! ## Claim C5: behaviour on point-encoding failure -/

/-- C5 (amended). There is no per-point drop: if every point of the batch
encodes, the call succeeds and returns them all; if encoding any point fails
(a non-finite scalar), the single call-level `try`/`except` aborts the whole
call, which returns an *empty* response with the INTERNAL error status set —
the failing point is not silently dropped from an otherwise successful
response. -/
theorem claim5_encoding_failure (pts : List RawPoint) (g : String) :
    ((∀ p ∈ pts, (encodePoint p).isSome) →
      (getBatchDataResponse pts g).errorStatus = false ∧
      (getBatchDataResponse pts g).dataPoints.length = pts.length ∧
      (getBatchDataResponse pts g).totalCount = pts.length) ∧
    ((∃ p ∈ pts, encodePoint p = none) →
      (getBatchDataResponse pts g).errorStatus = true ∧
      (getBatchDataResponse pts g).dataPoints = []) := by
  constructor
  · intro hall
    have hok : ∀ (l : List RawPoint), (∀ p ∈ l, (encodePoint p).isSome) →
        ∃ es, convertPoints l = .ok es ∧ es.length = l.length := by
      intro l
      induction l with
      | nil => intro _; exact ⟨[], rfl, rfl⟩
      | cons p ps ih =>
        intro h
        obtain ⟨e, he⟩ := Option.isSome_iff_exists.mp (h p (by simp))
        obtain ⟨es, hes, hlen⟩ := ih (fun q hq => h q (by simp [hq]))
        refine ⟨e :: es, ?_, by simp [hlen]⟩
        simp [convertPoints, he, hes]
    obtain ⟨es, hconv, hlen⟩ := hok pts hall
    simp [getBatchDataResponse, hconv, hlen]
  · intro ⟨p, hp, hnone⟩
    have herr : ∀ (l : List RawPoint), p ∈ l → convertPoints l = .error () := by
      intro l
      induction l with
      | nil => intro h; cases h
      | cons q qs ih =>
        intro hmem
        rcases List.mem_cons.mp hmem with rfl | hmem'
        · simp [convertPoints, hnone]
        · unfold convertPoints
          cases hq : encodePoint q with
          | none => rfl
          | some e => rw [ih hmem']
    simp [getBatchDataResponse, herr pts hp]

/-- Witness for C5: an all-finite two-point batch succeeds, and a batch
containing a non-finite point yields the error response. -/
theorem claim5_encoding_failure_witness :
    (getBatchDataResponse
      [{ id := "a", latitude := .fin 1, longitude := .fin 2, altitude := .fin 0,
         value := .fin 3, unit := "elevation", timestamp := 0 }] "m").errorStatus
        = false ∧
    (getBatchDataResponse
      [{ id := "a", latitude := .fin 1, longitude := .fin 2, altitude := .fin 0,
         value := .fin 3, unit := "elevation", timestamp := 0 },
       { id := "b", latitude := .fin 1, longitude := .fin 2, altitude := .fin 0,
         value := .nonfin, unit := "elevation", timestamp := 0 }] "m").errorStatus
        = true := by
  constructor
  · exact ((claim5_encoding_failure _ "m").1 (by decide)).1
  · exact ((claim5_encoding_failure _ "m").2
      ⟨{ id := "b", latitude := .fin 1, longitude := .fin 2, altitude := .fin 0,
         value := .nonfin, unit := "elevation", timestamp := 0 },
       by simp, rfl⟩).1

/-- C5 counterexample. A two-point batch whose second point has a
non-finite value: the claim predicts a successful call returning exactly the
one finite point, but the response has the error status set and zero
points. -/
theorem claim5_silent_drop_counterexample :
    (getBatchDataResponse
      [{ id := "a", latitude := .fin 1, longitude := .fin 2, altitude := .fin 0,
         value := .fin 3, unit := "elevation", timestamp := 0 },
       { id := "b", latitude := .fin 1, longitude := .fin 2, altitude := .fin 0,
         value := .nonfin, unit := "elevation", timestamp := 0 }] "m").errorStatus
        = true ∧
    ¬ ((getBatchDataResponse
      [{ id := "a", latitude := .fin 1, longitude := .fin 2, altitude := .fin 0,
         value := .fin 3, unit := "elevation", timestamp := 0 },
       { id := "b", latitude := .fin 1, longitude := .fin 2, altitude := .fin 0,
         value := .nonfin, unit := "elevation", timestamp := 0 }] "m").errorStatus
        = false ∧
      (getBatchDataResponse
      [{ id := "a", latitude := .fin 1, longitude := .fin 2, altitude := .fin 0,
         value := .fin 3, unit := "elevation", timestamp := 0 },
       { id := "b", latitude := .fin 1, longitude := .fin 2, altitude := .fin 0,
         value := .nonfin, unit := "elevation", timestamp := 0 }] "m").dataPoints.length
        = 1) := by
  constructor
  · rfl
  · intro ⟨hfalse, _⟩
    simp [getBatchDataResponse, convertPoints, encodePoint, encodeScalar] at hfalse

end Geospatial

namespace Geospatial

/-! ## Claim C6: data-type dispatch and the elevation fallback -/

/-- C6. The generator dispatches on `data_types[0]`: each of the five
known keys selects its own generation function, an unknown key falls back to
elevation, and an empty `data_types` list also selects elevation. -/
theorem claim6_field_kind_dispatch :
    (∀ (s : String) (rest : List String), s ∉ generationMethodKeys →
      chosenMethod (s :: rest) = .elevation) ∧
    chosenMethod [] = .elevation ∧
    (∀ rest, chosenMethod ("elevation" :: rest) = .elevation) ∧
    (∀ rest, chosenMethod ("temperature" :: rest) = .temperature) ∧
    (∀ rest, chosenMethod ("pressure" :: rest) = .pressure) ∧
    (∀ rest, chosenMethod ("noise" :: rest) = .noise) ∧
    (∀ rest, chosenMethod ("sine_wave" :: rest) = .sine_wave) := by
  refine ⟨?_, by rfl, fun _ => rfl, fun _ => rfl, fun _ => rfl,
    fun _ => rfl, fun _ => rfl⟩
  intro s rest hs
  have hne : ∀ k ∈ generationMethodKeys, s ≠ k := fun k hk he => hs (he ▸ hk)
  have h1 : (s == "elevation") = false :=
    beq_eq_false_iff_ne.mpr (hne _ (by simp [generationMethodKeys]))
  have h2 : (s == "temperature") = false :=
    beq_eq_false_iff_ne.mpr (hne _ (by simp [generationMethodKeys]))
  have h3 : (s == "pressure") = false :=
    beq_eq_false_iff_ne.mpr (hne _ (by simp [generationMethodKeys]))
  have h4 : (s == "noise") = false :=
    beq_eq_false_iff_ne.mpr (hne _ (by simp [generationMethodKeys]))
  have h5 : (s == "sine_wave") = false :=
    beq_eq_false_iff_ne.mpr (hne _ (by simp [generationMethodKeys]))
  simp [chosenMethod, chosenDataType, generationMethods, List.lookup,
    h1, h2, h3, h4, h5]

/-- Witness for C6 at the unknown key `"humidity"`. -/
theorem claim6_field_kind_dispatch_witness :
    chosenMethod ["humidity"] = .elevation ∧
    chosenMethod ["sine_wave"] = .sine_wave := by
  constructor
  · exact claim6_field_kind_dispatch.1 "humidity" [] (by decide)
  · exact claim6_field_kind_dispatch.2.2.2.2.2.2 []

/-! ## Claim C7: missing dataset yields an empty boundary map -/

/-- C7. Function `get_dataset_boundaries` on a dataset id absent from the store
returns the empty boundary map (the function returns normally; no exception
reaches the caller). -/
theorem claim7_missing_dataset (store : Store) (datasetId : String)
    (cols : Option (List String)) (h : store.lookup datasetId = none) :
    getDatasetBoundaries store datasetId cols = [] := by
  simp [getDatasetBoundaries, h]

/-- Witness for C7: the empty store and a store holding only `"other"`. -/
theorem claim7_missing_dataset_witness :
    getDatasetBoundaries [] "missing" none = [] ∧
    getDatasetBoundaries
      [("other", { columnMappings := [⟨"v", 1, false⟩], rows := [] })]
      "missing" none = [] := by
  constructor
  · exact claim7_missing_dataset [] "missing" none rfl
  · exact claim7_missing_dataset _ "missing" none rfl

/-! ## Claim C8: cooperative cancellation of the live stream -/

/-- The loop `streamEmit` consumes the liveness oracle one sample per iteration; if it
is true for the first `N` iterations and false at iteration `N`, exactly the
first `N` points are emitted. -/
theorem streamEmit_eq_take (active : ℕ → Bool) :
    ∀ (pts : List BatchPoint) (k N : ℕ),
      (∀ i, i < N → active (k + i) = true) → active (k + N) = false →
      streamEmit active pts k = pts.take N := by
  intro pts
  induction pts with
  | nil => intro k N _ _; simp [streamEmit]
  | cons p ps ih =>
    intro k N hb hN
    cases N with
    | zero =>
      have hk : active k = false := by simpa using hN
      simp [streamEmit, hk]
    | succ M =>
      have hk : active k = true := by simpa using hb 0 (Nat.succ_pos M)
      have hb' : ∀ i, i < M → active ((k + 1) + i) = true := by
        intro i hi
        have e : (k + 1) + i = k + (i + 1) := by omega
        rw [e]
        exact hb (i + 1) (by omega)
      have hN' : active ((k + 1) + M) = false := by
        have e : (k + 1) + M = k + (M + 1) := by omega
        rw [e]
        exact hN
      simp [streamEmit, hk, ih (k + 1) M hb' hN', List.take_succ_cons]

/-- C8. Method `StreamData` polls the channel's liveness once per point
iteration; if the channel is observed open for the first `N` iterations and
closed at iteration `N`, exactly the first `N` generated points are emitted
(none after the closure) and the call ends with no error status set. -/
theorem claim8_stream_cancellation (active : ℕ → Bool) (pts : List BatchPoint)
    (N : ℕ) (hbefore : ∀ i, i < N → active i = true) (hN : active N = false) :
    (streamData active pts).points = pts.take N ∧
    (streamData active pts).errorStatus = false := by
  constructor
  · have := streamEmit_eq_take active pts 0 N
      (fun i hi => by simpa using hbefore i hi) (by simpa using hN)
    simpa [streamData] using this
  · rfl

/-- Witness for C8: a channel that closes after one point. -/
theorem claim8_stream_cancellation_witness :
    (streamData (fun i => decide (i < 1)) [samplePoint, samplePoint]).points
      = [samplePoint, samplePoint].take 1 ∧
    (streamData (fun i => decide (i < 1)) [samplePoint, samplePoint]).errorStatus
      = false := by
  exact claim8_stream_cancellation (fun i => decide (i < 1))
    [samplePoint, samplePoint] 1 (by decide) (by decide)

end Geospatial

namespace Geospatial

/-! ## Claim C9: parallel-array alignment of columnar data -/

/-- C9. Every generated `ColumnarBlock` has `id`, `x`, `y`, `z` and
`id_value` arrays of one common length, and every chunk sliced from a
generated block by the columnar streaming method preserves that alignment. -/
theorem claim9_columnar_parallel_lengths
    (fc : FieldKind → ℚ → ℚ → ℚ) (latMin latMax lngMin lngMax : ℚ)
    (dataTypes : List String) (maxPoints resolution : ℕ) (g : String) :
    ((generateColumnarData fc latMin latMax lngMin lngMax dataTypes
        maxPoints resolution).1.x.length =
      (generateColumnarData fc latMin latMax lngMin lngMax dataTypes
        maxPoints resolution).1.y.length ∧
     (generateColumnarData fc latMin latMax lngMin lngMax dataTypes
        maxPoints resolution).1.y.length =
      (generateColumnarData fc latMin latMax lngMin lngMax dataTypes
        maxPoints resolution).1.z.length ∧
     (generateColumnarData fc latMin latMax lngMin lngMax dataTypes
        maxPoints resolution).1.z.length =
      (generateColumnarData fc latMin latMax lngMin lngMax dataTypes
        maxPoints resolution).1.id.length ∧
     (generateColumnarData fc latMin latMax lngMin lngMax dataTypes
        maxPoints resolution).1.id.length =
      (generateColumnarData fc latMin latMax lngMin lngMax dataTypes
        maxPoints resolution).1.idValue.length) ∧
    (∀ c ∈ columnarChunks (generateColumnarData fc latMin latMax lngMin lngMax
        dataTypes maxPoints resolution).1 g,
      c.x.length = c.y.length ∧ c.y.length = c.z.length ∧
      c.z.length = c.id.length ∧ c.id.length = c.idValue.length) := by
  obtain ⟨hx, hy, hz, hid, hidv⟩ := generateColumnarData_lengths fc latMin
    latMax lngMin lngMax dataTypes maxPoints resolution
  constructor
  · rw [hx, hy, hz, hid, hidv]
    exact ⟨rfl, rfl, rfl, rfl⟩
  · intro c hc
    simp only [columnarChunks, List.mem_map, List.mem_range] at hc
    obtain ⟨i, hi, rfl⟩ := hc
    refine ⟨?_, ?_, ?_, ?_⟩ <;>
      simp only [List.length_take, List.length_drop, hx, hy, hz, hid, hidv]

/-- Witness for C9 at a concrete one-point generation. -/
theorem claim9_columnar_parallel_lengths_witness :
    ∃ c ∈ columnarChunks (generateColumnarData (fun _ _ _ => 0) 0 1 0 1
        ["elevation"] 1 1).1 "m",
      c.x.length = c.y.length ∧ c.y.length = c.z.length ∧
      c.z.length = c.id.length ∧ c.id.length = c.idValue.length := by
  have h := (claim9_columnar_parallel_lengths (fun _ _ _ => 0) 0 1 0 1
    ["elevation"] 1 1 "m").2
  have hx1 : (generateColumnarData (fun (_ : FieldKind) (_ _ : ℚ) => (0 : ℚ))
      0 1 0 1 ["elevation"] 1 1).1.x.length = 1 := by
    rw [(generateColumnarData_lengths (fun _ _ _ => 0) 0 1 0 1
      ["elevation"] 1 1).1]
    decide
  have hlt : 0 < (columnarChunks (generateColumnarData
      (fun (_ : FieldKind) (_ _ : ℚ) => (0 : ℚ)) 0 1 0 1
      ["elevation"] 1 1).1 "m").length := by
    rw [columnarChunks_length, hx1]
    decide
  exact ⟨_, List.get_mem _ 0 hlt, h _ (List.get_mem _ 0 hlt)⟩

end Geospatial

namespace Geospatial

/-! ## Claim C10: unconditional elevation/temperature extra columns -/

/-- C10. When `'elevation'` is not among the requested data types,
`generate_columnar_data` still adds an `elevation` array to
`additional_data`, and likewise a `temperature` array when `'temperature'`
is not requested; each such array is as long as the primary `x` array. -/
theorem claim10_extra_columns (fc : FieldKind → ℚ → ℚ → ℚ)
    (latMin latMax lngMin lngMax : ℚ) (dataTypes : List String)
    (maxPoints resolution : ℕ) :
    ("elevation" ∉ dataTypes →
      ∃ arr, (generateColumnarData fc latMin latMax lngMin lngMax dataTypes
          maxPoints resolution).1.additionalData "elevation" = some arr ∧
        arr.length = (generateColumnarData fc latMin latMax lngMin lngMax
          dataTypes maxPoints resolution).1.x.length) ∧
    ("temperature" ∉ dataTypes →
      ∃ arr, (generateColumnarData fc latMin latMax lngMin lngMax dataTypes
          maxPoints resolution).1.additionalData "temperature" = some arr ∧
        arr.length = (generateColumnarData fc latMin latMax lngMin lngMax
          dataTypes maxPoints resolution).1.x.length) := by
  have hxlen := (generateColumnarData_lengths fc latMin latMax lngMin lngMax
    dataTypes maxPoints resolution).1
  constructor
  · intro he
    refine ⟨(flatField (fc .elevation)
        (linspace latMin latMax (actualResolution maxPoints resolution))
        (linspace lngMin lngMax (actualResolution maxPoints resolution))).take
          maxPoints, ?_, ?_⟩
    · by_cases ht : "temperature" ∈ dataTypes <;>
        simp [generateColumnarData, he, ht, updateMap]
    · rw [List.length_take, flatField_length, linspace_length,
        linspace_length, hxlen]
  · intro ht
    refine ⟨(flatField (fc .temperature)
        (linspace latMin latMax (actualResolution maxPoints resolution))
        (linspace lngMin lngMax (actualResolution maxPoints resolution))).take
          maxPoints, ?_, ?_⟩
    · by_cases he : "elevation" ∈ dataTypes <;>
        simp [generateColumnarData, he, ht, updateMap]
    · rw [List.length_take, flatField_length, linspace_length,
        linspace_length, hxlen]

/-- Witness for C10 with `data_types = ["noise"]`: both extra columns are
present. -/
theorem claim10_extra_columns_witness :
    (∃ arr, (generateColumnarData (fun _ _ _ => 0) 0 1 0 1 ["noise"] 1 1).1.additionalData
        "elevation" = some arr ∧
      arr.length = (generateColumnarData (fun _ _ _ => 0) 0 1 0 1
        ["noise"] 1 1).1.x.length) ∧
    (∃ arr, (generateColumnarData (fun _ _ _ => 0) 0 1 0 1 ["noise"] 1 1).1.additionalData
        "temperature" = some arr ∧
      arr.length = (generateColumnarData (fun _ _ _ => 0) 0 1 0 1
        ["noise"] 1 1).1.x.length) := by
  have h := claim10_extra_columns (fun _ _ _ => 0) 0 1 0 1 ["noise"] 1 1
  exact ⟨h.1 (by decide), h.2 (by decide)⟩

end Geospatial
